import Mathlib

/-!
Shallow embedding of the VwapProject trading bot (src/bot.py).

Modelling conventions:
* times are integers counting seconds (the code compares aware datetimes;
  only ordering and subtraction of fixed offsets are used);
* prices are rationals (the code uses Python Decimal, an exact subset of Q);
* the broker (tastytrade session/account) is an oracle passed in as data:
  `placeEntryOk` is whether `place_complex_order` succeeds, and the broker
  position list is paired with the success of each closing `place_order`;
* mutation of the module-level globals `timestamps`, `in_position`,
  `is_live`, `is_bullish` becomes explicit state passing on `BotState`;
* a Python exception that escapes a handler (KeyError on an unknown ticker
  key, ValueError on an invalid stop type) is recorded in the `err` field
  of the result, together with the state as mutated before the raise.
-/

inductive OrderAction where
  | BUY
  | SELL
deriving DecidableEq, Repr

/-- The `position_object` dict built in `process_trade`. -/
structure Position where
  ticker : String
  symbol_ticker : String
  current_price : ℚ
  stop_size : ℤ
  profit_size : ℤ
  order_action : OrderAction
  size : ℤ
deriving DecidableEq, Repr

/-- The configuration fields of `config` that the trading logic reads. -/
structure Config where
  PAYLOAD_TOKEN : String
  NARROW_NQ : ℤ
  MEDIUM_NQ : ℤ
  WIDE_NQ : ℤ
  NARROW_ES : ℤ
  MEDIUM_ES : ℤ
  WIDE_ES : ℤ
  SIZE_ES : ℤ
  SIZE_NQ : ℤ
  symbol_ES : String
  symbol_NQ : String
deriving DecidableEq, Repr

/-- The mutable module-level globals of bot.py. -/
structure BotState where
  timestamps_ES : List ℤ
  timestamps_NQ : List ℤ
  in_position : List Position
  is_live : Bool
  is_bullish : Bool
deriving DecidableEq, Repr

/-- A position as reported by `account.get_positions`. -/
structure BrokerPosition where
  symbol : String
  underlying_symbol : String
  quantity_direction : String
  instrument_type : String
  quantity : ℤ
deriving DecidableEq, Repr

/-- An order as reported by `account.get_live_orders`. -/
structure WorkingOrder where
  id : Nat
  order_type : String
  status : String
deriving DecidableEq, Repr

/-- Broker oracle: outcome of the entry submission, and the reported
position list paired with the outcome of each closing submission. -/
structure Broker where
  placeEntryOk : Bool
  positions : List (BrokerPosition × Bool)
deriving DecidableEq, Repr

/-- The bracket prices computed in `process_trade` for the OTOCO order. -/
structure OrderPlan where
  take_profit_price : ℚ
  stop_loss_price : ℚ
deriving DecidableEq, Repr

/-- An aiohttp `web.Response` (status and body text). -/
structure WebResponse where
  status : Nat
  body : String
deriving DecidableEq, Repr

/-- Result of running one handler: the final global state plus an
observation log of what the handler did along the way. `err` holds a
Python exception that escaped the handler, with `state` the globals as
mutated up to the raise. -/
structure ExecResult where
  state : BotState
  err : Option String := none
  tradeAttempted : Bool := false
  entryAttempted : Bool := false
  entryPlaced : Bool := false
  plan : Option OrderPlan := none
  cancelCalls : Nat := 0
  closeOrdersPlaced : Nat := 0
  response : Option WebResponse := none
deriving DecidableEq, Repr

/-- The two instruments the bot tracks; `process_trade` is only ever
called with the literals "ES" and "NQ". -/
inductive Ticker where
  | ES
  | NQ
deriving DecidableEq, Repr

def tickerName : Ticker → String
  | .ES => "ES"
  | .NQ => "NQ"

/-- The lookup `config[f"{stop_type.upper()}_{ticker}"]`, for the stop
types accepted by `process_trade`. -/
def stopSizeFor (cfg : Config) (stop_type : String) (ticker : Ticker) : ℤ :=
  match ticker with
  | .ES =>
    if stop_type = "Narrow" then cfg.NARROW_ES
    else if stop_type = "Medium" then cfg.MEDIUM_ES
    else cfg.WIDE_ES
  | .NQ =>
    if stop_type = "Narrow" then cfg.NARROW_NQ
    else if stop_type = "Medium" then cfg.MEDIUM_NQ
    else cfg.WIDE_NQ

/-- The `profit_multipliers` dict in `process_trade`. -/
def profit_multiplier (stop_type : String) : ℤ :=
  if stop_type = "Narrow" then 3
  else if stop_type = "Medium" then 5
  else 7

/-- The lookup `config[f"SIZE_{ticker}"]`. -/
def sizeFor (cfg : Config) (ticker : Ticker) : ℤ :=
  match ticker with
  | .ES => cfg.SIZE_ES
  | .NQ => cfg.SIZE_NQ

/-- The global `symbol_ES` / `symbol_NQ` read via `globals()`. -/
def symbolFor (cfg : Config) (ticker : Ticker) : String :=
  match ticker with
  | .ES => cfg.symbol_ES
  | .NQ => cfg.symbol_NQ

/-- `clean_old_timestamps`: drop timestamps at or before
`current_time - timedelta(hours=1, minutes=30)` (5400 seconds). -/
def clean_old_timestamps (s : BotState) (current_time : ℤ) : BotState :=
  { s with
    timestamps_ES := s.timestamps_ES.filter (fun t => current_time - 5400 < t),
    timestamps_NQ := s.timestamps_NQ.filter (fun t => current_time - 5400 < t) }

/-- `clear_timestamps`: empty both timestamp lists. -/
def clear_timestamps (s : BotState) : BotState :=
  { s with timestamps_ES := [], timestamps_NQ := [] }

/-- `timestamps[ticker].append(current_time)` for a key that exists. -/
def appendTimestamp (s : BotState) (ticker : String) (t : ℤ) : BotState :=
  if ticker = "ES" then { s with timestamps_ES := s.timestamps_ES ++ [t] }
  else { s with timestamps_NQ := s.timestamps_NQ ++ [t] }

/-- `process_trade`: guarded by `not in_position and is_live`; validates
the stop type (raising ValueError otherwise); builds the bracket prices;
submits the OTOCO order; on success clears the timestamp history and
appends the position object, on a caught submission error leaves the
globals untouched. -/
def process_trade (cfg : Config) (s : BotState) (ticker : Ticker) (stop_type : String)
    (current_price : ℚ) (order_action : OrderAction) (placeOk : Bool) : ExecResult :=
  if s.in_position = [] ∧ s.is_live = true then
    if stop_type = "Narrow" ∨ stop_type = "Medium" ∨ stop_type = "Wide" then
      let stop_size : ℤ := stopSizeFor cfg stop_type ticker
      let profit_size : ℤ := stop_size * profit_multiplier stop_type
      let size : ℤ := sizeFor cfg ticker
      let take_profit_price : ℚ :=
        if order_action = .BUY then current_price + (profit_size : ℚ)
        else current_price - (profit_size : ℚ)
      let stop_loss_price : ℚ :=
        if order_action = .BUY then current_price - (stop_size : ℚ)
        else current_price + (stop_size : ℚ)
      let plan : OrderPlan := ⟨take_profit_price, stop_loss_price⟩
      if placeOk then
        let position_object : Position :=
          { ticker := tickerName ticker
            symbol_ticker := symbolFor cfg ticker
            current_price := current_price
            stop_size := stop_size
            profit_size := profit_size
            order_action := order_action
            size := size }
        let s1 := clear_timestamps s
        { state := { s1 with in_position := s1.in_position ++ [position_object] }
          tradeAttempted := true
          entryAttempted := true
          entryPlaced := true
          plan := some plan }
      else
        { state := s
          tradeAttempted := true
          entryAttempted := true
          entryPlaced := false
          plan := some plan }
    else
      { state := s
        err := some "ValueError: Invalid stop type. Must be Narrow, Medium, or Wide."
        tradeAttempted := true }
  else
    { state := s, tradeAttempted := true }

/-- The filter in the `close_positions` loop: a broker position is closed
when its direction matches, it is a future, and its quantity is positive. -/
def matchesClose (direction : String) (p : BrokerPosition) : Bool :=
  p.quantity_direction == direction && p.instrument_type == "Future" && decide (0 < p.quantity)

/-- The `for pos in positions` loop of `close_positions`: returns the
number of `cancel_live_orders` calls made, the number of closing orders
submitted, and whether a submission failed (causing an early return). -/
def close_loop (direction : String) : List (BrokerPosition × Bool) → Nat × Nat × Bool
  | [] => (0, 0, false)
  | (p, ok) :: rest =>
    if matchesClose direction p then
      if ok then
        let r := close_loop direction rest
        (r.1 + 1, r.2.1 + 1, r.2.2)
      else
        (1, 1, true)
    else
      close_loop direction rest

/-- `close_positions`: only acts when live; iterates the broker position
list closing matches; on any submission error returns without clearing
`in_position`; otherwise sets `in_position = []` after the loop. -/
def close_positions (s : BotState) (direction : String)
    (broker : List (BrokerPosition × Bool)) : ExecResult :=
  if s.is_live = true then
    let r := close_loop direction broker
    if r.2.2 = true then
      { state := s, cancelCalls := r.1, closeOrdersPlaced := r.2.1 }
    else
      { state := { s with in_position := [] }, cancelCalls := r.1, closeOrdersPlaced := r.2.1 }
  else
    { state := s }

/-- `cancel_live_orders`: when live, delete every working order whose
type is STOP or LIMIT and whose status is LIVE; returns the ids deleted. -/
def cancel_live_orders (is_live : Bool) (working : List WorkingOrder) : List Nat :=
  if is_live then
    (working.filter
      (fun o => (o.order_type == "Stop" || o.order_type == "Limit") && o.status == "Live")).map
      (fun o => o.id)
  else []

/-- `handle_bullish_alert`: a Long alert records its own timestamp (a
KeyError escapes for a ticker that is not a timestamps key), purges old
timestamps, then enters when the other instrument has a surviving
timestamp and the time is outside the forbidden range, or bypass is set;
a Short alert while in a position closes the Long position. -/
def handle_bullish_alert (cfg : Config) (s : BotState)
    (ticker alert_type stop_type : String) (current_price : ℚ)
    (current_time forbidden_start forbidden_end : ℤ) (bypass : Bool)
    (broker : Broker) : ExecResult :=
  if alert_type = "Long" then
    if ticker = "ES" ∨ ticker = "NQ" then
      let s1 := clean_old_timestamps (appendTimestamp s ticker current_time) current_time
      if ticker = "ES" ∧
          ((s1.timestamps_NQ ≠ [] ∧
            ¬(forbidden_start ≤ current_time ∧ current_time ≤ forbidden_end)) ∨ bypass = true) then
        process_trade cfg s1 .ES stop_type current_price .BUY broker.placeEntryOk
      else if ticker = "NQ" ∧
          ((s1.timestamps_ES ≠ [] ∧
            ¬(forbidden_start ≤ current_time ∧ current_time ≤ forbidden_end)) ∨ bypass = true) then
        process_trade cfg s1 .NQ stop_type current_price .BUY broker.placeEntryOk
      else
        { state := s1 }
    else
      { state := s, err := some "KeyError" }
  else if alert_type = "Short" ∧ s.in_position ≠ [] then
    close_positions s "Long" broker.positions
  else
    { state := s }

/-- `handle_bearish_alert`: mirror image of the bullish handler with the
directions swapped. -/
def handle_bearish_alert (cfg : Config) (s : BotState)
    (ticker alert_type stop_type : String) (current_price : ℚ)
    (current_time forbidden_start forbidden_end : ℤ) (bypass : Bool)
    (broker : Broker) : ExecResult :=
  if alert_type = "Short" then
    if ticker = "ES" ∨ ticker = "NQ" then
      let s1 := clean_old_timestamps (appendTimestamp s ticker current_time) current_time
      if ticker = "ES" ∧
          ((s1.timestamps_NQ ≠ [] ∧
            ¬(forbidden_start ≤ current_time ∧ current_time ≤ forbidden_end)) ∨ bypass = true) then
        process_trade cfg s1 .ES stop_type current_price .SELL broker.placeEntryOk
      else if ticker = "NQ" ∧
          ((s1.timestamps_ES ≠ [] ∧
            ¬(forbidden_start ≤ current_time ∧ current_time ≤ forbidden_end)) ∨ bypass = true) then
        process_trade cfg s1 .NQ stop_type current_price .SELL broker.placeEntryOk
      else
        { state := s1 }
    else
      { state := s, err := some "KeyError" }
  else if alert_type = "Long" ∧ s.in_position ≠ [] then
    close_positions s "Short" broker.positions
  else
    { state := s }

/-- A parsed `POST /webhook` body. -/
structure WebhookRequest where
  payload_token : String
  ticker : String
  price : ℚ
  alert_type : String
  stop_type : String
  bypass : Bool
deriving DecidableEq, Repr

/-- `current_time.replace(hour=8, minute=30, second=0, microsecond=0)`
with times as nonnegative seconds since a midnight. -/
def forbidden_start_of (t : ℤ) : ℤ := 86400 * (t / 86400) + 30600

/-- `current_time.replace(hour=8, minute=35, second=0, microsecond=0)`. -/
def forbidden_end_of (t : ℤ) : ℤ := 86400 * (t / 86400) + 30900

/-- `handle_webhook`: under the lock, if the payload token matches and the
bot is live, dispatch to the handler for the current bias; the final
empty-text `web.Response` line is reached whenever no exception escaped,
giving status 200 with an empty body. -/
def handle_webhook (cfg : Config) (s : BotState) (req : WebhookRequest)
    (current_time : ℤ) (broker : Broker) : ExecResult :=
  if req.payload_token = cfg.PAYLOAD_TOKEN ∧ s.is_live = true then
    let r :=
      if s.is_bullish then
        handle_bullish_alert cfg s req.ticker req.alert_type req.stop_type req.price
          current_time (forbidden_start_of current_time) (forbidden_end_of current_time)
          req.bypass broker
      else
        handle_bearish_alert cfg s req.ticker req.alert_type req.stop_type req.price
          current_time (forbidden_start_of current_time) (forbidden_end_of current_time)
          req.bypass broker
    if r.err = none then { r with response := some ⟨200, ""⟩ }
    else { r with response := none }
  else
    { state := s, response := some ⟨200, ""⟩ }

/-- `handle_switch_live_status`: with a valid token, flip `is_live` and
answer 200; otherwise answer 403 Forbidden. -/
def handle_switch_live_status (cfg : Config) (s : BotState)
    (payload_token : String) : ExecResult :=
  if payload_token = cfg.PAYLOAD_TOKEN then
    { state := { s with is_live := !s.is_live }
      response := some ⟨200, "Bot Is Live status has been switched"⟩ }
  else
    { state := s, response := some ⟨403, "Forbidden"⟩ }

/-- `handle_switch_bias`: with a valid token, close positions in the
current bias direction, clear the timestamp history, flip `is_bullish`. -/
def handle_switch_bias (cfg : Config) (s : BotState) (payload_token : String)
    (broker : Broker) : ExecResult :=
  if payload_token = cfg.PAYLOAD_TOKEN then
    let r := close_positions s (if s.is_bullish then "Long" else "Short") broker.positions
    let s1 := clear_timestamps r.state
    { state := { s1 with is_bullish := !s1.is_bullish }
      cancelCalls := r.cancelCalls
      closeOrdersPlaced := r.closeOrdersPlaced
      response := some ⟨200, "Bot has been switched"⟩ }
  else
    { state := s, response := some ⟨403, "Forbidden"⟩ }

/-- One iteration of the fast reconciliation loop in `main`: when a
position is tracked and the bot is live and the broker reports no
positions, cancel live orders and clear `in_position`. Returns the new
state and the ids of the orders cancelled. -/
def reconcile (s : BotState) (brokerPositions : List BrokerPosition)
    (working : List WorkingOrder) : BotState × List Nat :=
  if s.in_position ≠ [] ∧ s.is_live = true then
    if brokerPositions = [] then
      ({ s with in_position := [] }, cancel_live_orders s.is_live working)
    else
      (s, [])
  else
    (s, [])

/-- Every external stimulus that can mutate the global state. -/
inductive Event where
  | webhook (req : WebhookRequest) (current_time : ℤ) (broker : Broker)
  | switchLive (payload_token : String)
  | switchBias (payload_token : String) (broker : Broker)
  | reconcilePass (brokerPositions : List BrokerPosition) (working : List WorkingOrder)

/-- The state transition induced by one stimulus. -/
def step (cfg : Config) (s : BotState) (e : Event) : BotState :=
  match e with
  | .webhook req t broker => (handle_webhook cfg s req t broker).state
  | .switchLive tok => (handle_switch_live_status cfg s tok).state
  | .switchBias tok broker => (handle_switch_bias cfg s tok broker).state
  | .reconcilePass bp w => (reconcile s bp w).1

/-- Concrete configuration used to exercise the theorems. -/
def cfg0 : Config := ⟨"token123", 10, 20, 30, 1, 2, 3, 1, 2, "ESU5", "NQU5"⟩

/-- Concrete initial state: no timestamps, no position, live, bullish. -/
def flatLiveBullish : BotState := ⟨[], [], [], true, true⟩

lemma process_trade_attempted (cfg : Config) (s : BotState) (ticker : Ticker)
    (stop_type : String) (current_price : ℚ) (order_action : OrderAction) (placeOk : Bool) :
    (process_trade cfg s ticker stop_type current_price order_action placeOk).tradeAttempted = true := by
  simp only [process_trade]
  split_ifs <;> rfl

lemma process_trade_len_le (cfg : Config) (s : BotState) (ticker : Ticker)
    (stop_type : String) (current_price : ℚ) (order_action : OrderAction) (placeOk : Bool)
    (h : s.in_position.length ≤ 1) :
    (process_trade cfg s ticker stop_type current_price order_action placeOk).state.in_position.length ≤ 1 := by
  simp only [process_trade]
  split_ifs <;> simp_all [clear_timestamps]

lemma close_positions_in_position (s : BotState) (direction : String)
    (broker : List (BrokerPosition × Bool)) :
    (close_positions s direction broker).state.in_position = s.in_position ∨
      (close_positions s direction broker).state.in_position = [] := by
  simp only [close_positions]
  split_ifs <;> simp

lemma close_positions_len_le (s : BotState) (direction : String)
    (broker : List (BrokerPosition × Bool)) (h : s.in_position.length ≤ 1) :
    (close_positions s direction broker).state.in_position.length ≤ 1 := by
  rcases close_positions_in_position s direction broker with h1 | h1 <;> rw [h1] <;> simp [h]


lemma handle_bullish_alert_len_le (cfg : Config) (s : BotState)
    (ticker alert_type stop_type : String) (current_price : ℚ)
    (current_time forbidden_start forbidden_end : ℤ) (bypass : Bool) (broker : Broker)
    (h : s.in_position.length ≤ 1) :
    (handle_bullish_alert cfg s ticker alert_type stop_type current_price
      current_time forbidden_start forbidden_end bypass broker).state.in_position.length ≤ 1 := by
  have hclean : ∀ tk, ((clean_old_timestamps (appendTimestamp s tk current_time) current_time).in_position.length ≤ 1) := by
    intro tk
    simp [clean_old_timestamps, appendTimestamp]
    split <;> exact h
  simp only [handle_bullish_alert]
  split_ifs with h1 h2 h3 h4 h5
  · exact process_trade_len_le _ _ _ _ _ _ _ (hclean _)
  · exact process_trade_len_le _ _ _ _ _ _ _ (hclean _)
  · exact hclean _
  · exact h
  · exact close_positions_len_le _ _ _ h
  · exact h

lemma handle_bearish_alert_len_le (cfg : Config) (s : BotState)
    (ticker alert_type stop_type : String) (current_price : ℚ)
    (current_time forbidden_start forbidden_end : ℤ) (bypass : Bool) (broker : Broker)
    (h : s.in_position.length ≤ 1) :
    (handle_bearish_alert cfg s ticker alert_type stop_type current_price
      current_time forbidden_start forbidden_end bypass broker).state.in_position.length ≤ 1 := by
  have hclean : ∀ tk, ((clean_old_timestamps (appendTimestamp s tk current_time) current_time).in_position.length ≤ 1) := by
    intro tk
    simp [clean_old_timestamps, appendTimestamp]
    split <;> exact h
  simp only [handle_bearish_alert]
  split_ifs with h1 h2 h3 h4 h5
  · exact process_trade_len_le _ _ _ _ _ _ _ (hclean _)
  · exact process_trade_len_le _ _ _ _ _ _ _ (hclean _)
  · exact hclean _
  · exact h
  · exact close_positions_len_le _ _ _ h
  · exact h

lemma handle_webhook_len_le (cfg : Config) (s : BotState) (req : WebhookRequest)
    (t : ℤ) (broker : Broker) (h : s.in_position.length ≤ 1) :
    (handle_webhook cfg s req t broker).state.in_position.length ≤ 1 := by
  simp only [handle_webhook]
  split_ifs <;>
    first
      | exact h
      | exact handle_bullish_alert_len_le _ _ _ _ _ _ _ _ _ _ _ h
      | exact handle_bearish_alert_len_le _ _ _ _ _ _ _ _ _ _ _ h

lemma step_len_le (cfg : Config) (s : BotState) (e : Event)
    (h : s.in_position.length ≤ 1) : (step cfg s e).in_position.length ≤ 1 := by
  cases e with
  | webhook req t broker => exact handle_webhook_len_le cfg s req t broker h
  | switchLive tok =>
    simp only [step, handle_switch_live_status]
    split_ifs <;> exact h
  | switchBias tok broker =>
    simp only [step, handle_switch_bias]
    split_ifs
    · simpa [clear_timestamps] using close_positions_len_le s _ broker.positions h
    · simpa [clear_timestamps] using close_positions_len_le s _ broker.positions h
    · exact h
  | reconcilePass bp w =>
    simp only [step, reconcile]
    split_ifs <;> simp [h]

/-- C1: across any sequence of webhook alerts, bias and live toggles, and
reconciliation passes, the position slot holds at most one entry; an
entry is only recorded when the slot is empty, and closing and
reconciliation only leave the slot unchanged or empty it. -/
theorem at_most_one_position (cfg : Config) (s0 : BotState) (events : List Event)
    (h : s0.in_position.length ≤ 1) :
    (((events.foldl (step cfg) s0).in_position).length ≤ 1)
    ∧ (∀ ticker stop_type price act ok,
        (process_trade cfg s0 ticker stop_type price act ok).state.in_position
            ≠ s0.in_position → s0.in_position = [])
    ∧ (∀ direction broker,
        (close_positions s0 direction broker).state.in_position = s0.in_position
        ∨ (close_positions s0 direction broker).state.in_position = [])
    ∧ (∀ bp w, (reconcile s0 bp w).1.in_position = s0.in_position
        ∨ (reconcile s0 bp w).1.in_position = []) := by
  refine ⟨?_, ?_, ?_, ?_⟩
  · induction events generalizing s0 with
    | nil => exact h
    | cons e es ih => exact ih (step cfg s0 e) (step_len_le cfg s0 e h)
  · intro ticker stop_type price act ok hne
    by_contra hne2
    have hst : (process_trade cfg s0 ticker stop_type price act ok).state = s0 := by
      simp only [process_trade]
      rw [if_neg (fun hc => hne2 hc.1)]
    exact hne (by rw [hst])
  · intro direction broker
    exact close_positions_in_position s0 direction broker
  · intro bp w
    simp only [reconcile]
    split_ifs <;> simp

theorem at_most_one_position_witness :
    (((([Event.webhook ⟨"token123", "ES", 100, "Long", "Medium", true⟩ 50000 ⟨true, []⟩,
        Event.webhook ⟨"token123", "NQ", 200, "Long", "Medium", true⟩ 50010 ⟨true, []⟩,
        Event.reconcilePass [] [],
        Event.switchLive "token123"].foldl (step cfg0) flatLiveBullish).in_position).length ≤ 1)) :=
  (at_most_one_position cfg0 flatLiveBullish _ (by decide)).1

/-- C9: with a valid token, toggling the live status twice returns the
whole global state (live flag, position, alert history, bias) to its
original value. -/
theorem toggle_live_twice_id (cfg : Config) (s : BotState) (payload_token : String)
    (h : payload_token = cfg.PAYLOAD_TOKEN) :
    (handle_switch_live_status cfg
      (handle_switch_live_status cfg s payload_token).state payload_token).state = s := by
  simp [handle_switch_live_status, h]

theorem toggle_live_twice_id_witness :
    (handle_switch_live_status cfg0
      (handle_switch_live_status cfg0 flatLiveBullish "token123").state "token123").state
      = flatLiveBullish :=
  toggle_live_twice_id cfg0 flatLiveBullish "token123" rfl

/-- C3: for a stop profile with stop distance d and reference price p, the
long bracket is (p + m*d, p - d) and the short bracket is (p - m*d, p + d),
with m the fixed 3/5/7 multiplier, in exact rational arithmetic. -/
theorem bracket_prices (cfg : Config) (s : BotState) (ticker : Ticker)
    (stop_type : String) (current_price : ℚ) (order_action : OrderAction) (placeOk : Bool)
    (hflat : s.in_position = []) (hlive : s.is_live = true)
    (hstop : stop_type = "Narrow" ∨ stop_type = "Medium" ∨ stop_type = "Wide") :
    ((process_trade cfg s ticker stop_type current_price order_action placeOk).plan =
      some
        { take_profit_price :=
            if order_action = .BUY then
              current_price + (profit_multiplier stop_type : ℚ) * (stopSizeFor cfg stop_type ticker : ℚ)
            else
              current_price - (profit_multiplier stop_type : ℚ) * (stopSizeFor cfg stop_type ticker : ℚ)
          stop_loss_price :=
            if order_action = .BUY then current_price - (stopSizeFor cfg stop_type ticker : ℚ)
            else current_price + (stopSizeFor cfg stop_type ticker : ℚ) })
    ∧ profit_multiplier "Narrow" = 3
    ∧ profit_multiplier "Medium" = 5
    ∧ profit_multiplier "Wide" = 7 := by
  refine ⟨?_, by decide, by decide, by decide⟩
  have hc : ((stopSizeFor cfg stop_type ticker * profit_multiplier stop_type : ℤ) : ℚ)
      = (profit_multiplier stop_type : ℚ) * (stopSizeFor cfg stop_type ticker : ℚ) := by
    push_cast
    ring
  simp only [process_trade, if_pos (And.intro hflat hlive), if_pos hstop]
  cases order_action <;> split_ifs <;> simp [hc]

theorem bracket_prices_witness :
    (process_trade cfg0 flatLiveBullish .ES "Medium" 5000 .BUY true).plan =
      some { take_profit_price := (5010 : ℚ), stop_loss_price := (4998 : ℚ) } := by
  have h := (bracket_prices cfg0 flatLiveBullish .ES "Medium" 5000 .BUY true rfl rfl
    (Or.inr (Or.inl rfl))).1
  rw [h]
  have hne : ("Medium" : String) = "Narrow" ↔ False := by simp
  norm_num [cfg0, profit_multiplier, stopSizeFor, hne]

/-- C4: the entry is attempted only when live with no position; on a
successful submission the alert history is cleared and exactly the one
position object (instrument, price, distances, direction, size) is
recorded. -/
theorem entry_guard_and_effect (cfg : Config) (s : BotState) (ticker : Ticker)
    (stop_type : String) (current_price : ℚ) (order_action : OrderAction) (placeOk : Bool) :
    ((process_trade cfg s ticker stop_type current_price order_action placeOk).entryAttempted = true →
        s.is_live = true ∧ s.in_position = [])
    ∧ (s.is_live = true → s.in_position = [] →
        (stop_type = "Narrow" ∨ stop_type = "Medium" ∨ stop_type = "Wide") → placeOk = true →
        (process_trade cfg s ticker stop_type current_price order_action placeOk).entryPlaced = true ∧
        (process_trade cfg s ticker stop_type current_price order_action placeOk).state =
          { timestamps_ES := [], timestamps_NQ := [],
            in_position := [{ ticker := tickerName ticker, symbol_ticker := symbolFor cfg ticker,
                              current_price := current_price,
                              stop_size := stopSizeFor cfg stop_type ticker,
                              profit_size := stopSizeFor cfg stop_type ticker * profit_multiplier stop_type,
                              order_action := order_action, size := sizeFor cfg ticker }],
            is_live := s.is_live, is_bullish := s.is_bullish }) := by
  constructor
  · intro hatt
    by_cases hg : s.in_position = [] ∧ s.is_live = true
    · exact ⟨hg.2, hg.1⟩
    · simp only [process_trade, if_neg hg] at hatt
      simp at hatt
  · intro hl hf hst hp
    subst hp
    simp only [process_trade, if_pos (And.intro hf hl), if_pos hst]
    simp [clear_timestamps, hf]

theorem entry_guard_and_effect_witness :
    (process_trade cfg0 flatLiveBullish .ES "Medium" 5000 .BUY true).entryPlaced = true ∧
    (process_trade cfg0 flatLiveBullish .ES "Medium" 5000 .BUY true).state =
      { timestamps_ES := [], timestamps_NQ := [],
        in_position := [{ ticker := tickerName .ES, symbol_ticker := symbolFor cfg0 .ES,
                          current_price := 5000,
                          stop_size := stopSizeFor cfg0 "Medium" .ES,
                          profit_size := stopSizeFor cfg0 "Medium" .ES * profit_multiplier "Medium",
                          order_action := .BUY, size := sizeFor cfg0 .ES }],
        is_live := flatLiveBullish.is_live, is_bullish := flatLiveBullish.is_bullish } :=
  (entry_guard_and_effect cfg0 flatLiveBullish .ES "Medium" 5000 .BUY true).2
    rfl rfl (Or.inr (Or.inl rfl)) rfl

lemma close_loop_failed_iff (direction : String) (broker : List (BrokerPosition × Bool)) :
    (close_loop direction broker).2.2
      = broker.any (fun pb => matchesClose direction pb.1 && !pb.2) := by
  induction broker with
  | nil => rfl
  | cons hd tl ih =>
    obtain ⟨p, ok⟩ := hd
    simp only [close_loop, List.any_cons]
    split_ifs with h1 h2
    · simp [h1, h2, ih]
    · simp [h1, h2]
    · simp [h1, ih]

lemma close_loop_no_match (direction : String) (broker : List (BrokerPosition × Bool))
    (h : ∀ pb ∈ broker, matchesClose direction pb.1 = false) :
    close_loop direction broker = (0, 0, false) := by
  induction broker with
  | nil => rfl
  | cons hd tl ih =>
    obtain ⟨p, ok⟩ := hd
    have hp := h (p, ok) (List.mem_cons_self _ _)
    simp only [close_loop]
    rw [if_neg (by simp [hp])]
    exact ih (fun pb hm => h pb (List.mem_cons_of_mem _ hm))

/-- C5: a failed entry submission leaves the state exactly as before the
attempt (no position recorded, alert history intact), and a failed
closing submission returns without clearing the local position state. -/
theorem rollback_on_submission_error (cfg : Config) (s : BotState) (ticker : Ticker)
    (stop_type : String) (current_price : ℚ) (order_action : OrderAction)
    (direction : String) (broker : List (BrokerPosition × Bool)) :
    ((process_trade cfg s ticker stop_type current_price order_action false).state = s
      ∧ (process_trade cfg s ticker stop_type current_price order_action false).entryPlaced = false)
    ∧ (broker.any (fun pb => matchesClose direction pb.1 && !pb.2) = true →
        (close_positions s direction broker).state = s) := by
  refine ⟨⟨?_, ?_⟩, ?_⟩
  · simp only [process_trade]
    split_ifs <;> first | rfl | (exfalso ; assumption)
  · simp only [process_trade]
    split_ifs <;> first | rfl | (exfalso ; assumption)
  · intro hfail
    simp only [close_positions]
    split_ifs with hl hf
    · rfl
    · rw [close_loop_failed_iff, hfail] at hf
      exact absurd rfl hf
    · rfl

/-- A broker-side long ES future used to exercise the closing path. -/
def bp0 : BrokerPosition := ⟨"ESU5", "/ES", "Long", "Future", 1⟩

theorem rollback_on_submission_error_witness :
    ((process_trade cfg0 flatLiveBullish .ES "Medium" 5000 .BUY false).state = flatLiveBullish
      ∧ (process_trade cfg0 flatLiveBullish .ES "Medium" 5000 .BUY false).entryPlaced = false)
    ∧ (close_positions flatLiveBullish "Long" [(bp0, false)]).state = flatLiveBullish := by
  have h := rollback_on_submission_error cfg0 flatLiveBullish .ES "Medium" 5000 .BUY
    "Long" [(bp0, false)]
  exact ⟨h.1, h.2 (by decide)⟩

/-- C10: a live close finding no broker position matching the direction
still clears the local position slot, submitting no closing order and
invoking no cancellation. -/
theorem close_without_match_still_clears (s : BotState) (direction : String)
    (broker : List (BrokerPosition × Bool))
    (hlive : s.is_live = true)
    (hnone : ∀ pb ∈ broker, matchesClose direction pb.1 = false) :
    (close_positions s direction broker).state = { s with in_position := [] }
    ∧ (close_positions s direction broker).cancelCalls = 0
    ∧ (close_positions s direction broker).closeOrdersPlaced = 0 := by
  simp [close_positions, close_loop_no_match direction broker hnone, hlive]

theorem close_without_match_still_clears_witness :
    (close_positions flatLiveBullish "Short" [(bp0, true)]).state
        = { flatLiveBullish with in_position := [] }
    ∧ (close_positions flatLiveBullish "Short" [(bp0, true)]).cancelCalls = 0
    ∧ (close_positions flatLiveBullish "Short" [(bp0, true)]).closeOrdersPlaced = 0 :=
  close_without_match_still_clears flatLiveBullish "Short" [(bp0, true)] rfl (by decide)

/-- C7: when a position is tracked, the bot is live, and the broker
reports no positions, the reconciliation pass cancels the live stop and
limit orders and clears the local position; once cleared, further passes
change nothing and cancel nothing. -/
theorem reconciliation_clears_once (s : BotState) (brokerPositions : List BrokerPosition)
    (working : List WorkingOrder)
    (h1 : s.in_position ≠ []) (h2 : s.is_live = true) (h3 : brokerPositions = []) :
    (reconcile s brokerPositions working).1 = { s with in_position := [] }
    ∧ (reconcile s brokerPositions working).2 = cancel_live_orders true working
    ∧ (∀ o ∈ working, (o.order_type = "Stop" ∨ o.order_type = "Limit") → o.status = "Live" →
        o.id ∈ (reconcile s brokerPositions working).2)
    ∧ (∀ bp2 w2, reconcile (reconcile s brokerPositions working).1 bp2 w2 =
        ((reconcile s brokerPositions working).1, [])) := by
  have hr : reconcile s brokerPositions working
      = ({ s with in_position := [] }, cancel_live_orders true working) := by
    simp [reconcile, h1, h2, h3]
  refine ⟨by rw [hr], by rw [hr], ?_, ?_⟩
  · intro o ho htype hstat
    rw [hr]
    have hmem : o.id ∈ (working.filter
        (fun o => (o.order_type == "Stop" || o.order_type == "Limit") && o.status == "Live")).map
        (fun o => o.id) :=
      List.mem_map.mpr
        ⟨o, List.mem_filter.mpr ⟨ho, by rcases htype with h | h <;> simp [h, hstat]⟩, rfl⟩
    simpa [cancel_live_orders] using hmem
  · intro bp2 w2
    rw [hr]
    simp [reconcile]

/-- A working stop order, live at the broker. -/
def workingStop : WorkingOrder := ⟨7, "Stop", "Live"⟩

/-- A state tracking one open position. -/
def onePosState : BotState := ⟨[], [], [⟨"ES", "ESU5", 5000, 2, 10, .BUY, 1⟩], true, true⟩

theorem reconciliation_clears_once_witness :
    (reconcile onePosState [] [workingStop]).1 = { onePosState with in_position := [] }
    ∧ 7 ∈ (reconcile onePosState [] [workingStop]).2
    ∧ reconcile (reconcile onePosState [] [workingStop]).1 [] [workingStop]
        = ((reconcile onePosState [] [workingStop]).1, []) := by
  have h := reconciliation_clears_once onePosState [] [workingStop] (by decide) rfl rfl
  exact ⟨h.1, h.2.2.1 workingStop (by decide) (by decide) (by decide), h.2.2.2 [] [workingStop]⟩

lemma filter_ne_nil_iff (l : List ℤ) (t : ℤ) :
    (l.filter (fun x => decide (t - 5400 < x)) ≠ []) ↔ (∃ x ∈ l, t - 5400 < x) := by
  simp [List.filter_eq_nil_iff]

lemma clean_fresh (s0 : BotState) (t : ℤ) :
    (∀ x ∈ (clean_old_timestamps s0 t).timestamps_ES, t - 5400 < x)
    ∧ (∀ x ∈ (clean_old_timestamps s0 t).timestamps_NQ, t - 5400 < x) := by
  constructor <;>
    · intro x hx
      simp only [clean_old_timestamps, List.mem_filter, decide_eq_true_eq] at hx
      exact hx.2

lemma process_trade_timestamps (cfg : Config) (s : BotState) (ticker : Ticker)
    (stop_type : String) (current_price : ℚ) (order_action : OrderAction) (placeOk : Bool) :
    ((process_trade cfg s ticker stop_type current_price order_action placeOk).state.timestamps_ES
        = s.timestamps_ES
      ∧ (process_trade cfg s ticker stop_type current_price order_action placeOk).state.timestamps_NQ
        = s.timestamps_NQ)
    ∨ ((process_trade cfg s ticker stop_type current_price order_action placeOk).state.timestamps_ES
        = []
      ∧ (process_trade cfg s ticker stop_type current_price order_action placeOk).state.timestamps_NQ
        = []) := by
  simp only [process_trade]
  split_ifs <;> simp [clear_timestamps]

/-- The common shape of the entry path shared by the two alert handlers
(they differ only in the order action passed to `process_trade`). -/
def alertEntryStep (cfg : Config) (s : BotState) (tk stop_type : String) (price : ℚ)
    (t fs fe : ℤ) (bypass : Bool) (broker : Broker) (act : OrderAction) : ExecResult :=
  let s1 := clean_old_timestamps (appendTimestamp s tk t) t
  if tk = "ES" ∧ ((s1.timestamps_NQ ≠ [] ∧ ¬(fs ≤ t ∧ t ≤ fe)) ∨ bypass = true) then
    process_trade cfg s1 .ES stop_type price act broker.placeEntryOk
  else if tk = "NQ" ∧ ((s1.timestamps_ES ≠ [] ∧ ¬(fs ≤ t ∧ t ≤ fe)) ∨ bypass = true) then
    process_trade cfg s1 .NQ stop_type price act broker.placeEntryOk
  else
    { state := s1 }

lemma bullish_long_eq (cfg : Config) (s : BotState) (tk stop_type : String) (price : ℚ)
    (t fs fe : ℤ) (bypass : Bool) (broker : Broker) :
    handle_bullish_alert cfg s tk "Long" stop_type price t fs fe bypass broker
      = if tk = "ES" ∨ tk = "NQ" then
          alertEntryStep cfg s tk stop_type price t fs fe bypass broker .BUY
        else { state := s, err := some "KeyError" } := by
  simp only [handle_bullish_alert, alertEntryStep]
  rw [if_pos trivial]

lemma bearish_short_eq (cfg : Config) (s : BotState) (tk stop_type : String) (price : ℚ)
    (t fs fe : ℤ) (bypass : Bool) (broker : Broker) :
    handle_bearish_alert cfg s tk "Short" stop_type price t fs fe bypass broker
      = if tk = "ES" ∨ tk = "NQ" then
          alertEntryStep cfg s tk stop_type price t fs fe bypass broker .SELL
        else { state := s, err := some "KeyError" } := by
  simp only [handle_bearish_alert, alertEntryStep]
  rw [if_pos trivial]

lemma alertEntryStep_attempt_iff (cfg : Config) (s : BotState) (tk stop_type : String)
    (price : ℚ) (t fs fe : ℤ) (bypass : Bool) (broker : Broker) (act : OrderAction)
    (htk : tk = "ES" ∨ tk = "NQ") :
    (alertEntryStep cfg s tk stop_type price t fs fe bypass broker act).tradeAttempted = true ↔
      (bypass = true ∨
        ((∃ x ∈ (if tk = "ES" then s.timestamps_NQ else s.timestamps_ES), t - 5400 < x)
          ∧ ¬(fs ≤ t ∧ t ≤ fe))) := by
  rcases htk with htk | htk <;> subst htk
  · have hlist : (clean_old_timestamps (appendTimestamp s "ES" t) t).timestamps_NQ
        = s.timestamps_NQ.filter (fun x => decide (t - 5400 < x)) := by
      simp [clean_old_timestamps, appendTimestamp]
    simp only [alertEntryStep, eq_false (by decide : ¬("ES" : String) = "NQ"), false_and,
      true_and]
    by_cases hX : ((clean_old_timestamps (appendTimestamp s "ES" t) t).timestamps_NQ ≠ []
        ∧ ¬(fs ≤ t ∧ t ≤ fe)) ∨ bypass = true
    · rw [if_pos hX]
      simp only [process_trade_attempted, true_iff]
      rcases hX with ⟨hne, hbl⟩ | hbp
      · rw [hlist] at hne
        exact Or.inr ⟨by simpa using (filter_ne_nil_iff _ _).mp hne, hbl⟩
      · exact Or.inl hbp
    · rw [if_neg hX, if_neg not_false]
      constructor
      · intro hfalse
        exact absurd hfalse (by simp)
      · intro hr
        exfalso
        apply hX
        rcases hr with hbp | ⟨hex, hbl⟩
        · exact Or.inr hbp
        · refine Or.inl ⟨?_, hbl⟩
          rw [hlist]
          exact (filter_ne_nil_iff _ _).mpr (by simpa using hex)
  · have hlist : (clean_old_timestamps (appendTimestamp s "NQ" t) t).timestamps_ES
        = s.timestamps_ES.filter (fun x => decide (t - 5400 < x)) := by
      simp [clean_old_timestamps, appendTimestamp]
    simp only [alertEntryStep, eq_false (by decide : ¬("NQ" : String) = "ES"), false_and,
      true_and]
    rw [if_neg not_false]
    by_cases hX : ((clean_old_timestamps (appendTimestamp s "NQ" t) t).timestamps_ES ≠ []
        ∧ ¬(fs ≤ t ∧ t ≤ fe)) ∨ bypass = true
    · rw [if_pos hX]
      simp only [process_trade_attempted, true_iff]
      rcases hX with ⟨hne, hbl⟩ | hbp
      · rw [hlist] at hne
        exact Or.inr ⟨by simpa using (filter_ne_nil_iff _ _).mp hne, hbl⟩
      · exact Or.inl hbp
    · rw [if_neg hX]
      constructor
      · intro hfalse
        exact absurd hfalse (by simp)
      · intro hr
        exfalso
        apply hX
        rcases hr with hbp | ⟨hex, hbl⟩
        · exact Or.inr hbp
        · refine Or.inl ⟨?_, hbl⟩
          rw [hlist]
          exact (filter_ne_nil_iff _ _).mpr (by simpa using hex)

lemma alertEntryStep_fresh (cfg : Config) (s : BotState) (tk stop_type : String)
    (price : ℚ) (t fs fe : ℤ) (bypass : Bool) (broker : Broker) (act : OrderAction) :
    (∀ x ∈ (alertEntryStep cfg s tk stop_type price t fs fe bypass broker act).state.timestamps_ES,
        t - 5400 < x)
    ∧ (∀ x ∈ (alertEntryStep cfg s tk stop_type price t fs fe bypass broker act).state.timestamps_NQ,
        t - 5400 < x) := by
  have hfr := clean_fresh (appendTimestamp s tk t) t
  simp only [alertEntryStep]
  split_ifs
  · rcases process_trade_timestamps cfg (clean_old_timestamps (appendTimestamp s tk t) t)
        .ES stop_type price act broker.placeEntryOk with ⟨hE, hN⟩ | ⟨hE, hN⟩ <;> rw [hE, hN]
    · exact hfr
    · exact ⟨by simp, by simp⟩
  · rcases process_trade_timestamps cfg (clean_old_timestamps (appendTimestamp s tk t) t)
        .NQ stop_type price act broker.placeEntryOk with ⟨hE, hN⟩ | ⟨hE, hN⟩ <;> rw [hE, hN]
    · exact hfr
    · exact ⟨by simp, by simp⟩
  · exact hfr

lemma alertEntryStep_not_attempted_state (cfg : Config) (s : BotState) (tk stop_type : String)
    (price : ℚ) (t fs fe : ℤ) (bypass : Bool) (broker : Broker) (act : OrderAction) :
    (alertEntryStep cfg s tk stop_type price t fs fe bypass broker act).tradeAttempted = false →
    (alertEntryStep cfg s tk stop_type price t fs fe bypass broker act).state
      = clean_old_timestamps (appendTimestamp s tk t) t := by
  simp only [alertEntryStep]
  split_ifs <;> intro h
  · simp [process_trade_attempted] at h
  · simp [process_trade_attempted] at h
  · rfl

lemma handle_webhook_tradeAttempted (cfg : Config) (s : BotState) (req : WebhookRequest)
    (t : ℤ) (broker : Broker)
    (h : req.payload_token = cfg.PAYLOAD_TOKEN ∧ s.is_live = true) :
    (handle_webhook cfg s req t broker).tradeAttempted =
      (if s.is_bullish then
        handle_bullish_alert cfg s req.ticker req.alert_type req.stop_type req.price
          t (forbidden_start_of t) (forbidden_end_of t) req.bypass broker
      else
        handle_bearish_alert cfg s req.ticker req.alert_type req.stop_type req.price
          t (forbidden_start_of t) (forbidden_end_of t) req.bypass broker).tradeAttempted := by
  simp only [handle_webhook, if_pos h]
  split_ifs <;> rfl

lemma handle_webhook_state (cfg : Config) (s : BotState) (req : WebhookRequest)
    (t : ℤ) (broker : Broker)
    (h : req.payload_token = cfg.PAYLOAD_TOKEN ∧ s.is_live = true) :
    (handle_webhook cfg s req t broker).state =
      (if s.is_bullish then
        handle_bullish_alert cfg s req.ticker req.alert_type req.stop_type req.price
          t (forbidden_start_of t) (forbidden_end_of t) req.bypass broker
      else
        handle_bearish_alert cfg s req.ticker req.alert_type req.stop_type req.price
          t (forbidden_start_of t) (forbidden_end_of t) req.bypass broker).state := by
  simp only [handle_webhook, if_pos h]
  split_ifs <;> rfl

/-- C2: an alert in the direction of the current bias leads to a trade
attempt exactly when bypass is set, or the other instrument has a
timestamp younger than 90 minutes and the time is outside the inclusive
08:30 to 08:35 window; and every timestamp surviving the call is younger
than 90 minutes (older ones were purged before the decision). -/
theorem correlation_gate (cfg : Config) (s : BotState) (req : WebhookRequest)
    (t : ℤ) (broker : Broker)
    (htok : req.payload_token = cfg.PAYLOAD_TOKEN) (hlive : s.is_live = true)
    (hdir : (s.is_bullish = true ∧ req.alert_type = "Long")
            ∨ (s.is_bullish = false ∧ req.alert_type = "Short"))
    (hticker : req.ticker = "ES" ∨ req.ticker = "NQ") :
    ((handle_webhook cfg s req t broker).tradeAttempted = true ↔
      (req.bypass = true ∨
        ((∃ x ∈ (if req.ticker = "ES" then s.timestamps_NQ else s.timestamps_ES), t - 5400 < x)
          ∧ ¬(forbidden_start_of t ≤ t ∧ t ≤ forbidden_end_of t))))
    ∧ (∀ x ∈ (handle_webhook cfg s req t broker).state.timestamps_ES, t - 5400 < x)
    ∧ (∀ x ∈ (handle_webhook cfg s req t broker).state.timestamps_NQ, t - 5400 < x) := by
  have hA := handle_webhook_tradeAttempted cfg s req t broker ⟨htok, hlive⟩
  have hS := handle_webhook_state cfg s req t broker ⟨htok, hlive⟩
  rcases hdir with ⟨hbias, halert⟩ | ⟨hbias, halert⟩
  · rw [hbias, if_pos rfl, halert, bullish_long_eq, if_pos hticker] at hA hS
    refine ⟨?_, ?_, ?_⟩
    · rw [hA]
      exact alertEntryStep_attempt_iff cfg s req.ticker req.stop_type req.price t
        (forbidden_start_of t) (forbidden_end_of t) req.bypass broker .BUY hticker
    · rw [hS]
      exact (alertEntryStep_fresh cfg s req.ticker req.stop_type req.price t
        (forbidden_start_of t) (forbidden_end_of t) req.bypass broker .BUY).1
    · rw [hS]
      exact (alertEntryStep_fresh cfg s req.ticker req.stop_type req.price t
        (forbidden_start_of t) (forbidden_end_of t) req.bypass broker .BUY).2
  · rw [hbias, if_neg (by simp), halert, bearish_short_eq, if_pos hticker] at hA hS
    refine ⟨?_, ?_, ?_⟩
    · rw [hA]
      exact alertEntryStep_attempt_iff cfg s req.ticker req.stop_type req.price t
        (forbidden_start_of t) (forbidden_end_of t) req.bypass broker .SELL hticker
    · rw [hS]
      exact (alertEntryStep_fresh cfg s req.ticker req.stop_type req.price t
        (forbidden_start_of t) (forbidden_end_of t) req.bypass broker .SELL).1
    · rw [hS]
      exact (alertEntryStep_fresh cfg s req.ticker req.stop_type req.price t
        (forbidden_start_of t) (forbidden_end_of t) req.bypass broker .SELL).2

theorem correlation_gate_witness :
    (handle_webhook cfg0 (⟨[], [49000], [], true, true⟩ : BotState)
        ⟨"token123", "ES", 100, "Long", "Medium", false⟩ 50000 ⟨true, []⟩).tradeAttempted
      = true := by
  have h := (correlation_gate cfg0 ⟨[], [49000], [], true, true⟩
      ⟨"token123", "ES", 100, "Long", "Medium", false⟩ 50000 ⟨true, []⟩ rfl rfl
      (Or.inl ⟨rfl, rfl⟩) (Or.inl rfl)).1
  exact h.mpr (Or.inr ⟨⟨49000, by simp, by norm_num⟩, by decide⟩)

/-- C6 counterexample: a request with a valid token against a live bullish
flat state, carrying an invalid stop type and bypass set, raises a
ValueError that escapes the handler, so the handler produces no 200
empty-body response for it. -/
theorem webhook_response_cex :
    ¬((handle_webhook cfg0 flatLiveBullish ⟨"token123", "ES", 100, "Long", "Bogus", true⟩
        50000 ⟨true, []⟩).response = some ⟨200, ""⟩) := by
  decide

/-- C6 amended: whenever processing raises no internal exception, the
webhook handler responds 200 with an empty body, regardless of whether
the alert was suppressed, processed, or hit a caught broker error. -/
theorem webhook_200_when_no_exception (cfg : Config) (s : BotState) (req : WebhookRequest)
    (t : ℤ) (broker : Broker)
    (h : (handle_webhook cfg s req t broker).err = none) :
    (handle_webhook cfg s req t broker).response = some ⟨200, ""⟩ := by
  simp only [handle_webhook] at h ⊢
  split_ifs at h ⊢ with h1 h2 h3 h4
  · rfl
  · simp at h
    exact absurd h h3
  · rfl
  · simp at h
    exact absurd h h4
  · rfl

theorem webhook_200_when_no_exception_witness :
    (handle_webhook cfg0 flatLiveBullish ⟨"token123", "ES", 100, "Long", "Medium", false⟩
        50000 ⟨true, []⟩).response = some ⟨200, ""⟩ :=
  webhook_200_when_no_exception cfg0 flatLiveBullish
    ⟨"token123", "ES", 100, "Long", "Medium", false⟩ 50000 ⟨true, []⟩ (by decide)

lemma clean_append_flags (s : BotState) (tk : String) (t : ℤ) :
    (clean_old_timestamps (appendTimestamp s tk t) t).is_live = s.is_live
    ∧ (clean_old_timestamps (appendTimestamp s tk t) t).is_bullish = s.is_bullish
    ∧ (clean_old_timestamps (appendTimestamp s tk t) t).in_position = s.in_position := by
  unfold clean_old_timestamps appendTimestamp
  split_ifs <;> exact ⟨rfl, rfl, rfl⟩

/-- C8 counterexample: both instruments alert at the same timestamp, under
the lock one call runs first; the claim says neither call is actionable,
but the second call is actionable, because the first call has already
recorded its timestamp. -/
theorem simultaneous_second_attempted :
    (handle_webhook cfg0
        (handle_webhook cfg0 flatLiveBullish ⟨"token123", "ES", 100, "Long", "Medium", false⟩
          50000 ⟨true, []⟩).state
        ⟨"token123", "NQ", 200, "Long", "Medium", false⟩ 50000 ⟨true, []⟩).tradeAttempted
      = true := by
  decide

/-- C8 amended: the timestamp of an alert is recorded before its own
corroboration check, which reads only the other instrument; hence of two
same-timestamp opposite-instrument alerts processed in sequence, the
first is not actionable (its corroborating timestamp does not exist yet)
while the second sees the timestamp just recorded by the first and is
actionable. -/
theorem record_before_check_serialized (cfg : Config) (s : BotState)
    (req1 req2 : WebhookRequest) (t : ℤ) (broker1 broker2 : Broker)
    (htok1 : req1.payload_token = cfg.PAYLOAD_TOKEN) (hes : req1.ticker = "ES")
    (ha1 : req1.alert_type = "Long") (hb1 : req1.bypass = false)
    (htok2 : req2.payload_token = cfg.PAYLOAD_TOKEN) (hnq : req2.ticker = "NQ")
    (ha2 : req2.alert_type = "Long") (hb2 : req2.bypass = false)
    (hlive : s.is_live = true) (hbull : s.is_bullish = true)
    (hNQ : s.timestamps_NQ = [])
    (hblack : ¬(forbidden_start_of t ≤ t ∧ t ≤ forbidden_end_of t)) :
    (handle_webhook cfg s req1 t broker1).tradeAttempted = false
    ∧ t ∈ (handle_webhook cfg s req1 t broker1).state.timestamps_ES
    ∧ (handle_webhook cfg (handle_webhook cfg s req1 t broker1).state
        req2 t broker2).tradeAttempted = true := by
  have hA1 := handle_webhook_tradeAttempted cfg s req1 t broker1 ⟨htok1, hlive⟩
  have hS1 := handle_webhook_state cfg s req1 t broker1 ⟨htok1, hlive⟩
  rw [hbull, if_pos rfl, ha1, hes, bullish_long_eq, if_pos (Or.inl rfl)] at hA1 hS1
  have hiff1 := alertEntryStep_attempt_iff cfg s "ES" req1.stop_type req1.price t
    (forbidden_start_of t) (forbidden_end_of t) req1.bypass broker1 .BUY (Or.inl rfl)
  have hnot1 : ¬((handle_webhook cfg s req1 t broker1).tradeAttempted = true) := by
    rw [hA1, hiff1]
    rintro (hbp | ⟨⟨x, hx, -⟩, -⟩)
    · rw [hb1] at hbp
      exact absurd hbp (by simp)
    · rw [if_pos rfl, hNQ] at hx
      exact absurd hx (List.not_mem_nil x)
  have hatt1 : (handle_webhook cfg s req1 t broker1).tradeAttempted = false := by
    simpa using hnot1
  have hstep1 : (alertEntryStep cfg s "ES" req1.stop_type req1.price t
      (forbidden_start_of t) (forbidden_end_of t) req1.bypass broker1 .BUY).tradeAttempted
      = false := by
    rw [← hA1]
    exact hatt1
  have hstate1 : (handle_webhook cfg s req1 t broker1).state
      = clean_old_timestamps (appendTimestamp s "ES" t) t := by
    rw [hS1]
    exact alertEntryStep_not_attempted_state cfg s "ES" req1.stop_type req1.price t
      (forbidden_start_of t) (forbidden_end_of t) req1.bypass broker1 .BUY hstep1
  have hmem : t ∈ (clean_old_timestamps (appendTimestamp s "ES" t) t).timestamps_ES := by
    simp only [clean_old_timestamps, appendTimestamp, if_true, List.mem_filter,
      List.mem_append, List.mem_singleton, decide_eq_true_eq]
    exact ⟨Or.inr trivial, by omega⟩
  have hflags := clean_append_flags s "ES" t
  have hlive1 : (handle_webhook cfg s req1 t broker1).state.is_live = true := by
    rw [hstate1, hflags.1]
    exact hlive
  have hbull1 : (handle_webhook cfg s req1 t broker1).state.is_bullish = true := by
    rw [hstate1, hflags.2.1]
    exact hbull
  refine ⟨hatt1, by rw [hstate1]; exact hmem, ?_⟩
  have hA2 := handle_webhook_tradeAttempted cfg (handle_webhook cfg s req1 t broker1).state
    req2 t broker2 ⟨htok2, hlive1⟩
  rw [hbull1, if_pos rfl, ha2, hnq, bullish_long_eq, if_pos (Or.inr rfl)] at hA2
  have hiff2 := alertEntryStep_attempt_iff cfg (handle_webhook cfg s req1 t broker1).state
    "NQ" req2.stop_type req2.price t (forbidden_start_of t) (forbidden_end_of t)
    req2.bypass broker2 .BUY (Or.inr rfl)
  rw [hA2, hiff2]
  refine Or.inr ⟨⟨t, ?_, by omega⟩, hblack⟩
  rw [if_neg (by decide), hstate1]
  exact hmem

theorem record_before_check_serialized_witness :
    (handle_webhook cfg0 flatLiveBullish ⟨"token123", "ES", 100, "Long", "Medium", false⟩
        50000 ⟨true, []⟩).tradeAttempted = false
    ∧ (50000 : ℤ) ∈ (handle_webhook cfg0 flatLiveBullish
        ⟨"token123", "ES", 100, "Long", "Medium", false⟩ 50000 ⟨true, []⟩).state.timestamps_ES
    ∧ (handle_webhook cfg0 (handle_webhook cfg0 flatLiveBullish
        ⟨"token123", "ES", 100, "Long", "Medium", false⟩ 50000 ⟨true, []⟩).state
        ⟨"token123", "NQ", 200, "Long", "Medium", false⟩ 50000 ⟨true, []⟩).tradeAttempted
      = true :=
  record_before_check_serialized cfg0 flatLiveBullish
    ⟨"token123", "ES", 100, "Long", "Medium", false⟩
    ⟨"token123", "NQ", 200, "Long", "Medium", false⟩ 50000 ⟨true, []⟩ ⟨true, []⟩
    rfl rfl rfl rfl rfl rfl rfl rfl rfl rfl rfl (by decide)
